import Mathlib

/-!
Shallow embedding of the social-book post pipeline, translated from
src/constants.py, src/regexes.py, src/app_tasks.py and src/posts.py.
Python strings are Lean String, byte strings are List Nat (each < 256),
Mongo documents are Lean structures, and external collaborators (libmagic
sniffing, GridFS, the profile provider, freshly generated ObjectIds and
UUIDs) are explicit parameters of the operations.
-/

namespace SocialBook

/-- constants.py line 7: allowed upload extensions. -/
def ALLOWED_FILE_EXTENSIONS : List String := ["png", "jpg", "jpeg", "gif", "mp4", "mov"]

/-- constants.py line 8: allowed sniffed MIME types. -/
def ALLOWED_MIME_TYPES : List String :=
  ["image/jpeg", "image/png", "image/gif", "video/mp4", "video/quicktime"]

/-- constants.py line 9: 50 MiB size ceiling for uploads. -/
def MAX_FILE_SIZE_BYTES : Nat := 50 * 1024 * 1024

/-- Whitespace test used by the model of Python str.strip, over the
ASCII whitespace characters. -/
def pyIsSpaceChar (c : Char) : Bool :=
  c.toNat = 32 || c.toNat = 9 || c.toNat = 10 || c.toNat = 11 || c.toNat = 12 || c.toNat = 13

/-- Python str.strip with no argument: whitespace removed at both ends. -/
def pyStrip (s : String) : String :=
  String.mk ((s.toList.dropWhile pyIsSpaceChar).reverse.dropWhile pyIsSpaceChar).reverse

/-- Byte codes of the whitespace characters matched by a Python regex
class escape for whitespace, restricted to the ASCII range (space, tab,
newline, vertical tab, form feed, carriage return). -/
def isPySpaceCode (n : Nat) : Bool :=
  n = 32 || n = 9 || n = 10 || n = 11 || n = 12 || n = 13

/-- Character class of POST_REGEX (regexes.py line 6): ASCII letters,
digits, whitespace, period (46), comma (44), exclamation mark (33),
question mark (63), hyphen (45), apostrophe (39), double quote (34),
and the explicitly listed newline (10) and carriage return (13), which
are already inside the whitespace escape. Characters are given by their
code points. -/
def postCharCode (n : Nat) : Bool :=
  (65 ≤ n && n ≤ 90) || (97 ≤ n && n ≤ 122) || (48 ≤ n && n ≤ 57) ||
  isPySpaceCode n || n = 46 || n = 44 || n = 33 || n = 63 ||
  n = 45 || n = 39 || n = 34

/-- Character class of TEXT_REGEX (regexes.py line 5): ASCII letters and
digits only. -/
def textCharCode (n : Nat) : Bool :=
  (65 ≤ n && n ≤ 90) || (97 ≤ n && n ≤ 122) || (48 ≤ n && n ≤ 57)

/-- The regular expressions this pipeline feeds to the validator
(regexes.py) are all of the anchored shape: one-or-more repetitions of a
single character class. A pattern is therefore modelled by the
characteristic function of its class, over code points. -/
inductive RePattern where
  | classPlus (cls : Nat → Bool)

/-- regexes.py line 6, POST_REGEX. -/
def POST_REGEX : RePattern := .classPlus postCharCode

/-- regexes.py line 5, TEXT_REGEX. -/
def TEXT_REGEX : RePattern := .classPlus textCharCode

/-- Python re.fullmatch: the entire string must match the pattern. For an
anchored one-or-more character class this holds exactly when the string
is nonempty and every character is in the class. -/
def re_fullmatch (p : RePattern) (s : String) : Bool :=
  match p with
  | .classPlus cls => !s.isEmpty && s.toList.all (fun c => cls c.toNat)

/-- Model of the escaping the bleach library applies to one character of
plain text: ampersand (38), less-than (60) and greater-than (62) are
replaced by their HTML entities, every other character is kept. -/
def bleachEscapeChar (c : Char) : List Char :=
  if c.toNat = 38 then (String.toList "&amp;")
  else if c.toNat = 60 then (String.toList "&lt;")
  else if c.toNat = 62 then (String.toList "&gt;")
  else [c]

/-- Model of bleach.clean on the inputs this pipeline passes it: the
markup-neutralizing transform escapes the bare markup characters of the
text. (The allowed-tag pass-through of the library is not modelled; it
only affects strings containing markup characters, which the validator
rejects under every pattern used here well before that distinction could
matter.) -/
def bleach_clean (s : String) : String :=
  String.mk (List.flatten (s.toList.map bleachEscapeChar))

/-- app_tasks.py lines 116 to 127, validate_sanitize: true iff the whole
string fullmatches the pattern and bleach.clean leaves it unchanged. -/
def validate_sanitize (value : String) (pattern : RePattern) : Bool :=
  if re_fullmatch pattern value && bleach_clean value == value then true else false

/-- Base64 alphabet of the standard encoding, sextet to ASCII code
(capital letters, small letters, digits, plus 43, slash 47). -/
def b64AlphaCode (n : Nat) : Nat :=
  if n < 26 then 65 + n
  else if n < 52 then 97 + (n - 26)
  else if n < 62 then 48 + (n - 52)
  else if n = 62 then 43
  else 47

/-- Inverse of the base64 alphabet, ASCII code to sextet. -/
def b64AlphaDecode (n : Nat) : Nat :=
  if 65 ≤ n && n ≤ 90 then n - 65
  else if 97 ≤ n && n ≤ 122 then n - 97 + 26
  else if 48 ≤ n && n ≤ 57 then n - 48 + 52
  else if n = 43 then 62
  else 63

/-- Python base64.b64encode on a byte string: groups of three bytes become
four alphabet characters, shorter final groups are padded with the code of
the equals sign (61). -/
def b64EncodeList : List Nat → List Nat
  | [] => []
  | [a] => [b64AlphaCode (a / 4), b64AlphaCode (a % 4 * 16), 61, 61]
  | [a, b] => [b64AlphaCode (a / 4), b64AlphaCode (a % 4 * 16 + b / 16),
               b64AlphaCode (b % 16 * 4), 61]
  | a :: b :: c :: rest =>
      b64AlphaCode (a / 4) :: b64AlphaCode (a % 4 * 16 + b / 16) ::
      b64AlphaCode (b % 16 * 4 + c / 64) :: b64AlphaCode (c % 64) ::
      b64EncodeList rest

/-- Python base64.b64decode on a byte string produced by the encoder:
four alphabet characters back to up to three bytes, honouring padding. -/
def b64DecodeList : List Nat → List Nat
  | w :: x :: y :: z :: rest =>
      if y = 61 then [b64AlphaDecode w * 4 + b64AlphaDecode x / 16]
      else if z = 61 then
        [b64AlphaDecode w * 4 + b64AlphaDecode x / 16,
         b64AlphaDecode x % 16 * 16 + b64AlphaDecode y / 4]
      else
        (b64AlphaDecode w * 4 + b64AlphaDecode x / 16) ::
        (b64AlphaDecode x % 16 * 16 + b64AlphaDecode y / 4) ::
        (b64AlphaDecode y % 4 * 64 + b64AlphaDecode z) ::
        b64DecodeList rest
  | _ => []

/-- UTF-8 encoding of one code point, as byte codes. -/
def utf8EncodeCharCode (n : Nat) : List Nat :=
  if n < 128 then [n]
  else if n < 2048 then [192 + n / 64, 128 + n % 64]
  else if n < 65536 then [224 + n / 4096, 128 + n / 64 % 64, 128 + n % 64]
  else [240 + n / 262144, 128 + n / 4096 % 64, 128 + n / 64 % 64, 128 + n % 64]

/-- Python str.encode of a string with the utf-8 codec, as byte codes. -/
def utf8Encode (s : String) : List Nat :=
  List.flatten (s.toList.map (fun c => utf8EncodeCharCode c.toNat))

/-- Continuation byte test for UTF-8 decoding. -/
def utf8Cont (b : Nat) : Bool := 128 ≤ b && b < 192

/-- Worker of the UTF-8 decoder. The first argument is fuel bounding the
number of decoding steps; since every step consumes at least one byte,
fuel equal to the byte count always suffices, and the zero-fuel branch
with bytes left is never reached from utf8Decode?. -/
def utf8DecodeAux : Nat → List Nat → Option (List Nat)
  | _, [] => some []
  | 0, _ :: _ => none
  | fuel + 1, b :: rest =>
    if b < 128 then (utf8DecodeAux fuel rest).map (fun cs => b :: cs)
    else
      match rest with
      | [] => none
      | b2 :: rest2 =>
        if 194 ≤ b && b < 224 && utf8Cont b2 then
          (utf8DecodeAux fuel rest2).map (fun cs => ((b - 192) * 64 + (b2 - 128)) :: cs)
        else
          match rest2 with
          | [] => none
          | b3 :: rest3 =>
            if 224 ≤ b && b < 240 && utf8Cont b2 && utf8Cont b3 then
              (utf8DecodeAux fuel rest3).map
                (fun cs => ((b - 224) * 4096 + (b2 - 128) * 64 + (b3 - 128)) :: cs)
            else
              match rest3 with
              | [] => none
              | b4 :: rest4 =>
                if 240 ≤ b && b < 245 && utf8Cont b2 && utf8Cont b3 && utf8Cont b4 then
                  (utf8DecodeAux fuel rest4).map
                    (fun cs => ((b - 240) * 262144 + (b2 - 128) * 4096 +
                               (b3 - 128) * 64 + (b4 - 128)) :: cs)
                else none

/-- Python bytes.decode with the utf-8 codec, returning the decoded code
points, or none where the codec raises. (Overlong and surrogate forms are
not rejected by this model; the pipeline only ever decodes ASCII bytes.) -/
def utf8Decode? (bs : List Nat) : Option (List Nat) :=
  utf8DecodeAux bs.length bs

/-- Byte codes back to a Lean string, through the utf-8 codec. This is
the read step get_posts actually performs on stored content. -/
def bytesToStr (bs : List Nat) : Option String :=
  (utf8Decode? bs).map (fun cs => String.mk (cs.map Char.ofNat))

/-- The true inverse of the stored content representation: undo the
base64 layer, then the utf-8 layer. (get_posts does not perform the
base64 step; this definition names what full decoding means.) -/
def decodeStored (bs : List Nat) : Option String :=
  (utf8Decode? (b64DecodeList bs)).map (fun cs => String.mk (cs.map Char.ofNat))

/-- The stored representation of post content: posts.py line 47, the
utf-8 encoding of the text followed by base64. -/
def contentBytes (c : String) : List Nat := b64EncodeList (utf8Encode c)

/-- constants.py: generic error message for direct calls. -/
def ERROR_DIRECT_CALL_DENIED : String := "Direct calls are not allowed. Access denied!"

/-- constants.py: conflated not-found and forbidden message. -/
def ERROR_POST_NOT_FOUND : String := "Post not found or forbidden"

/-- constants.py: message for an upload over the size ceiling. -/
def ERROR_FILE_TOO_LARGE : String := "File too large"

/-- constants.py: message for an empty upload. -/
def ERROR_EMPTY_FILE : String := "Empty File"

/-- constants.py: message for a disallowed extension. -/
def ERROR_FILE_TYPE_NOT_ALLOWED : String := "File type not allowed"

/-- constants.py: message for a disallowed sniffed type. -/
def ERROR_INVALID_FILE_TYPE : String := "Invalid file type"

/-- posts.py line 42: message when the form carries no content. -/
def msgContentRequired : String := "Post content is required"

/-- posts.py line 45: message when content fails validation. -/
def msgInvalidData : String := "Invalid data"

/-- posts.py lines 87 and 121: message when the id is judged missing. -/
def msgPostIdRequired : String := "Post ID is required"

/-- posts.py line 102: message when no update field was staged. -/
def msgNoUpdateFields : String := "No update fields provided"

/-- Form field names used by posts.py. -/
def keyContent : String := "content"

/-- Form field name of the post id. -/
def keyId : String := "id"

/-- Form field name of the attachment id sent to delete_post. -/
def keyAttachmentId : String := "attachment_id"

/-- Python str(None), the sentinel the client echoes for a missing
attachment (posts.py line 120 compares the form field against it). -/
def strNone : String := "None"

/-- URL base under which get_posts rewrites attachment references. -/
def filesUrlBase : String := "/api/files/"

/-- Redirect target of the successful mutations. -/
def rootUrl : String := "/"

/-- Lookup of a form field, Python dict.get: first binding or none. -/
def formGet (form : List (String × String)) (k : String) : Option String :=
  (form.find? (fun kv => kv.1 == k)).map (fun kv => kv.2)

/-- An uploaded file part: its client-supplied filename and its bytes.
The content-sniffing collaborator (libmagic) is a parameter of the
operations, not a field here. -/
structure FileV where
  filename : String
  data : List Nat
deriving DecidableEq

/-- Metadata GridFS put stores with a blob (app_tasks.py lines 90 to 96). -/
structure BlobMeta where
  data : List Nat
  filename : String
  content_type : String
  upload_date : Nat
deriving DecidableEq

/-- The value create_post ends up storing in the attachment field of a
post document. Because create_post (posts.py line 53) assigns whatever
upload_file returns, this is either the Python None it was initialised
to, a GridFS id, or one of the error values upload_file returns: a bare
message string, or a pair of message and HTTP status. -/
inductive StoredAttach where
  | pyNone
  | oid (s : String)
  | errMsg (m : String)
  | errPair (m : String) (code : Nat)
deriving DecidableEq

/-- The possible returns of upload_file (app_tasks.py lines 52 to 96). -/
inductive UploadRet where
  | ok (id : String)
  | tooLarge
  | emptyFile
  | typeNotAllowed
  | invalidType
deriving DecidableEq

/-- The Python value each upload_file return denotes, as stored by
create_post: the id on success, the (message, status) tuple for the size
and sniff failures, the bare message for the empty and extension
failures. -/
def uploadRetToStored : UploadRet → StoredAttach
  | .ok i => .oid i
  | .tooLarge => .errPair ERROR_FILE_TOO_LARGE 413
  | .emptyFile => .errMsg ERROR_EMPTY_FILE
  | .typeNotAllowed => .errMsg ERROR_FILE_TYPE_NOT_ALLOWED
  | .invalidType => .errPair ERROR_INVALID_FILE_TYPE 400

/-- One post document of the content store (posts.py lines 55 to 62). -/
structure PostV where
  id : String
  username : String
  content : List Nat
  attachment : StoredAttach
  created_at : Nat
  likes : List String
  comments : List String
deriving DecidableEq

/-- The display profile the external profile provider returns. -/
structure Profile where
  first_name : String
  last_name : String
  profile_picture : String
deriving DecidableEq

/-- One record of the list get_posts returns, after enrichment
(posts.py lines 155 to 164). -/
structure PostView where
  id : String
  username : String
  content : String
  attachment_id : String
  attachment : Option String
  created_at : Nat
  first_name : String
  last_name : String
  profile_picture : String
  likes : List String
  comments : List String
deriving DecidableEq

/-- A response of one of the route handlers: a JSON error with status, a
redirect, the posts listing, or a page generated by the framework (400
for a failed request.files lookup, 500 for an uncaught exception). -/
inductive Resp where
  | errJson (msg : String) (code : Nat)
  | redirect (loc : String)
  | postsJson (views : List PostView)
  | httpErr (code : Nat)
deriving DecidableEq

/-- The two backing stores: the post documents in insertion order, and
the GridFS blobs as id-metadata pairs. -/
structure St where
  posts : List PostV
  blobs : List (String × BlobMeta)
deriving DecidableEq

/-- Result of running one handler: its response, the stores afterwards,
and how many content-store and blob-store calls it issued. -/
structure OpOut where
  resp : Resp
  st : St
  dbCalls : Nat

/-- Per-request environment: the clock and the identifiers freshly
generated during the request (ObjectId of an inserted post, uuid4 for the
unique upload name, GridFS id of a stored blob, the ObjectId that
ObjectId(None) would mint for an absent attachment_id field), plus the
libmagic content-sniffing collaborator. -/
structure Env where
  now : Nat
  postId : String
  uuidStr : String
  blobId : String
  attachOid : String
  sniff : List Nat → String

/-- An inbound request: its Referer header, the authenticated identity
(current_user.id), the form fields, and the files mapping at key
attachment — none when the multipart body has no such part at all, some
part (possibly with an empty filename) when it does. -/
structure ReqV where
  referer : Option String
  user : String
  form : List (String × String)
  filesAttachment : Option FileV

/-- app_tasks.py lines 129 to 136, is_direct_call: true iff the request
carries no Referer header. -/
def is_direct_call (req : ReqV) : Bool :=
  match req.referer with
  | none => true
  | some _ => false

/-- Characters werkzeug secure_filename keeps: ASCII letters, digits,
underscore (95), period (46), hyphen (45). -/
def sfChar (n : Nat) : Bool :=
  (65 ≤ n && n ≤ 90) || (97 ≤ n && n ≤ 122) || (48 ≤ n && n ≤ 57) ||
  n = 95 || n = 46 || n = 45

/-- Model of werkzeug secure_filename: whitespace becomes underscore,
characters outside the kept set are dropped, and leading or trailing
periods and underscores are stripped. -/
def secure_filename (s : String) : String :=
  let kept := (s.toList.map (fun c => if c.toNat = 32 then Char.ofNat 95 else c)).filter
      (fun c => sfChar c.toNat)
  let strip := fun (l : List Char) => l.dropWhile (fun c => c.toNat = 46 || c.toNat = 95)
  String.mk ((strip (strip kept).reverse).reverse)

/-- The substring after the last period, Python rsplit on a period with
one split, second component. -/
def extAfterLastDot (s : String) : String :=
  String.mk (s.toList.reverse.takeWhile (fun c => c.toNat ≠ 46)).reverse

/-- ASCII lowercasing of one character, the fragment of Python str.lower
the extension check exercises. -/
def charLowerAscii (c : Char) : Char :=
  if 65 ≤ c.toNat && c.toNat ≤ 90 then Char.ofNat (c.toNat + 32) else c

/-- ASCII lowercasing of a string. -/
def strLowerAscii (s : String) : String := String.mk (s.toList.map charLowerAscii)

/-- app_tasks.py lines 27 to 37, allowed_file: the name contains a period
and its lowercased last extension is in the allow-set. -/
def allowed_file (filename : String) : Bool :=
  filename.toList.any (fun c => c.toNat = 46) &&
  ALLOWED_FILE_EXTENSIONS.contains (strLowerAscii (extAfterLastDot filename))

/-- app_tasks.py lines 52 to 96, upload_file: size ceiling check on the
seek-to-end position, full read, empty check, secure_filename, extension
check, unique name generation, content sniff check, then the GridFS put.
The put persists under the original secured filename: the code computes
the uuid-prefixed unique_filename but does not pass it to put. Returns
the result, the blob store afterwards, and the number of blob-store
calls. -/
def upload_file (env : Env) (blobs : List (String × BlobMeta)) (f : FileV) :
    UploadRet × List (String × BlobMeta) × Nat :=
  if f.data.length > MAX_FILE_SIZE_BYTES then (.tooLarge, blobs, 0)
  else
    let file_data := f.data
    if file_data.length = 0 then (.emptyFile, blobs, 0)
    else
      let filename := secure_filename f.filename
      if !allowed_file filename then (.typeNotAllowed, blobs, 0)
      else
        let _unique_filename := env.uuidStr ++ "_" ++ filename
        let detected_mime := env.sniff file_data
        if !(ALLOWED_MIME_TYPES.contains detected_mime) then (.invalidType, blobs, 0)
        else
          (.ok env.blobId,
           blobs ++ [(env.blobId, ⟨file_data, filename, detected_mime, env.now⟩)], 1)

/-- Python truthiness test `not post_id` applied to a bson ObjectId:
ObjectId defines neither a bool nor a len conversion, so every ObjectId
object is truthy and the test is always false. -/
def pyNotObjectId (_oid : String) : Bool := false

/-- bson ObjectId constructor on an optional form field: ObjectId(None)
mints a fresh id (the fresh argument), ObjectId(s) parses a well-formed
id string. (An ill-formed string raises InvalidId; the claims under
study only involve absent or well-formed ids.) -/
def pyObjectId (v : Option String) (fresh : String) : String := v.getD fresh

/-- Mongo update_one with filter id and username and a set patch on the
content field: patches the first matching document, returns the matched
count and the updated list. -/
def updateOne : List PostV → String → String → List Nat → Nat × List PostV
  | [], _, _, _ => (0, [])
  | p :: rest, pid, u, cb =>
    if p.id == pid && p.username == u then (1, { p with content := cb } :: rest)
    else
      let r := updateOne rest pid u cb
      (r.1, p :: r.2)

/-- Mongo delete_one with filter id and username: removes the first
matching document, returns the deleted count and the remaining list. -/
def deleteOne : List PostV → String → String → Nat × List PostV
  | [], _, _ => (0, [])
  | p :: rest, pid, u =>
    if p.id == pid && p.username == u then (1, rest)
    else
      let r := deleteOne rest pid u
      (r.1, p :: r.2)

/-- Insertion step of the descending created_at sort. -/
def insertDescP (p : PostV) : List PostV → List PostV
  | [] => [p]
  | q :: rest => if p.created_at > q.created_at then p :: q :: rest else q :: insertDescP p rest

/-- Mongo sort on created_at descending, most recent first. -/
def sortByCreatedDesc : List PostV → List PostV
  | [] => []
  | p :: rest => insertDescP p (sortByCreatedDesc rest)

/-- An apostrophe, built from its code point. -/
def pyQuote : String := String.singleton (Char.ofNat 39)

/-- Python str() of a stored attachment value, as get_posts applies it:
None prints as the None word, an id as itself, an error string as
itself, an error tuple in tuple notation. -/
def renderAttach : StoredAttach → String
  | .pyNone => strNone
  | .oid s => s
  | .errMsg m => m
  | .errPair m c => "(" ++ pyQuote ++ m ++ pyQuote ++ ", " ++ toString c ++ ")"

/-- posts.py lines 155 to 164: enrichment of one stored post for the
listing — stringified ids, attachment reference rewritten to a URL
unless it is None, profile fields attached, and the stored content bytes
passed through the utf-8 codec (and nothing else). none when the codec
raises. -/
def enrichPost (profiles : String → Profile) (p : PostV) : Option PostView :=
  (bytesToStr p.content).map (fun c =>
    { id := p.id
      username := p.username
      content := c
      attachment_id := renderAttach p.attachment
      attachment := match p.attachment with
        | .pyNone => none
        | a => some (filesUrlBase ++ renderAttach a)
      created_at := p.created_at
      first_name := (profiles p.username).first_name
      last_name := (profiles p.username).last_name
      profile_picture := (profiles p.username).profile_picture
      likes := p.likes
      comments := p.comments })

/-- posts.py lines 28 to 75, create_post: direct-call guard; files
lookup at key attachment, which raises a BadRequestKeyError page when the
part is absent and yields None when the part is present with an empty
filename (FileStorage truthiness); content required and validated; text
encoded with utf-8 then base64; upload run when an attachment is present,
its return value stored as the attachment field whatever it is; document
inserted; session regenerated and redirect. -/
def create_post (env : Env) (req : ReqV) (st : St) : OpOut :=
  if is_direct_call req then ⟨.errJson ERROR_DIRECT_CALL_DENIED 400, st, 0⟩
  else
    match req.filesAttachment with
    | none => ⟨.httpErr 400, st, 0⟩
    | some fpart =>
      let attachment : Option FileV := if fpart.filename ≠ "" then some fpart else none
      let content := pyStrip ((formGet req.form keyContent).getD "")
      if content = "" then ⟨.errJson msgContentRequired 400, st, 0⟩
      else if !validate_sanitize content POST_REGEX then ⟨.errJson msgInvalidData 400, st, 0⟩
      else
        let contentB := contentBytes content
        let upload : StoredAttach × List (String × BlobMeta) × Nat :=
          match attachment with
          | some f =>
            if f.filename ≠ "" then
              let r := upload_file env st.blobs f
              (uploadRetToStored r.1, r.2.1, r.2.2)
            else (.pyNone, st.blobs, 0)
          | none => (.pyNone, st.blobs, 0)
        let post : PostV :=
          { id := env.postId, username := req.user, content := contentB,
            attachment := upload.1, created_at := env.now, likes := [], comments := [] }
        ⟨.redirect rootUrl, ⟨st.posts ++ [post], upload.2.1⟩, upload.2.2 + 1⟩

/-- posts.py lines 77 to 112, update_post: direct-call guard; the id
field wrapped in an ObjectId (minting a fresh one when absent); the dead
missing-id guard; content staged only when nonempty and validated,
re-encoded with utf-8 then base64; the combined id+owner filtered
update_one; zero matches reported as not-found-or-forbidden. -/
def update_post (env : Env) (req : ReqV) (st : St) : OpOut :=
  if is_direct_call req then ⟨.errJson ERROR_DIRECT_CALL_DENIED 400, st, 0⟩
  else
    let post_id := pyObjectId (formGet req.form keyId) env.postId
    let content := pyStrip ((formGet req.form keyContent).getD "")
    if pyNotObjectId post_id then ⟨.errJson msgPostIdRequired 400, st, 0⟩
    else
      let staged : Option (List Nat) :=
        if content ≠ "" && validate_sanitize content POST_REGEX then
          some (contentBytes content)
        else none
      match staged with
      | none => ⟨.errJson msgNoUpdateFields 400, st, 0⟩
      | some cb =>
        let r := updateOne st.posts post_id req.user cb
        if r.1 = 0 then ⟨.errJson ERROR_POST_NOT_FOUND 403, ⟨r.2, st.blobs⟩, 1⟩
        else ⟨.redirect rootUrl, ⟨r.2, st.blobs⟩, 1⟩

/-- posts.py lines 114 to 141, delete_post: direct-call guard; the id
and attachment_id form fields wrapped in ObjectIds (the attachment_id
only when it is not the literal None word, and minting a fresh ObjectId
when the field is absent); the dead missing-id guard; the find_one
filtered by id+owner, absence reported as not-found-or-forbidden; the
GridFS delete of the form-supplied attachment id; the id+owner filtered
delete_one. Three store calls issue on the full path, one when the
lookup already fails. -/
def delete_post (env : Env) (req : ReqV) (st : St) : OpOut :=
  if is_direct_call req then ⟨.errJson ERROR_DIRECT_CALL_DENIED 400, st, 0⟩
  else
    let post_id := pyObjectId (formGet req.form keyId) env.postId
    let attachment_id : Option String :=
      if (formGet req.form keyAttachmentId) ≠ some strNone then
        some (pyObjectId (formGet req.form keyAttachmentId) env.attachOid)
      else none
    if pyNotObjectId post_id then ⟨.errJson msgPostIdRequired 400, st, 0⟩
    else
      match st.posts.find? (fun p => p.id == post_id && p.username == req.user) with
      | none => ⟨.errJson ERROR_POST_NOT_FOUND 403, st, 1⟩
      | some _post =>
        let blobs2 := match attachment_id with
          | some a => st.blobs.filter (fun kv => kv.1 ≠ a)
          | none => st.blobs
        let r := deleteOne st.posts post_id req.user
        if r.1 = 0 then ⟨.errJson ERROR_POST_NOT_FOUND 403, ⟨r.2, blobs2⟩, 3⟩
        else ⟨.redirect rootUrl, ⟨r.2, blobs2⟩, 3⟩

/-- posts.py lines 143 to 166, get_posts: direct-call guard; find, with
an equality filter when a username is given, sorted by created_at
descending; each record enriched; the whole request fails with the
framework 500 page when the utf-8 codec raises on some record. -/
def get_posts (req : ReqV) (username : Option String) (st : St)
    (profiles : String → Profile) : OpOut :=
  if is_direct_call req then ⟨.errJson ERROR_DIRECT_CALL_DENIED 400, st, 0⟩
  else
    let found := match username with
      | none => sortByCreatedDesc st.posts
      | some u => sortByCreatedDesc (st.posts.filter (fun p => p.username == u))
    match found.mapM (enrichPost profiles) with
    | some vs => ⟨.postsJson vs, st, 1⟩
    | none => ⟨.httpErr 500, st, 1⟩

/-- The content-wellformedness invariant of the post store: every stored
document holds the encoded form of some text the validator accepted
under the POST pattern. -/
def contentInvariant (ps : List PostV) : Prop :=
  ∀ p ∈ ps, ∃ c, p.content = contentBytes c ∧ validate_sanitize c POST_REGEX = true

/-- Store states reachable from the empty stores through the mutating
handlers. -/
inductive Reachable : St → Prop where
  | init : Reachable ⟨[], []⟩
  | create (env : Env) (req : ReqV) (st : St) :
      Reachable st → Reachable (create_post env req st).st
  | update (env : Env) (req : ReqV) (st : St) :
      Reachable st → Reachable (update_post env req st).st
  | delete (env : Env) (req : ReqV) (st : St) :
      Reachable st → Reachable (delete_post env req st).st

/-- A profile provider for the concrete scenarios. -/
def demoProfiles : String → Profile := fun _ => ⟨"Ada", "Lovelace", "avatar.png"⟩

/-- Per-request environment for the concrete scenarios. -/
def demoEnv : Env :=
  { now := 5, postId := "p1", uuidStr := "uuid1", blobId := "b1",
    attachOid := "freshattach", sniff := fun _ => "image/png" }

/-- Empty stores. -/
def emptySt : St := ⟨[], []⟩

/-- A referred create request with content and an attachment part that is
present but has an empty filename (no file chosen). -/
def reqHello : ReqV :=
  { referer := some "http://site/feed", user := "alice",
    form := [(keyContent, "Hello, world!")],
    filesAttachment := some ⟨"", []⟩ }

/-- A referred create request with valid content and an attachment part
named a.png whose bytes are empty. -/
def reqEmptyUpload : ReqV :=
  { referer := some "http://site/feed", user := "alice",
    form := [(keyContent, "Hello")],
    filesAttachment := some ⟨"a.png", []⟩ }

/-- Blob metadata for the delete scenario, blob X. -/
def blobX : BlobMeta := ⟨[1], "x.png", "image/png", 0⟩

/-- Blob metadata for the delete scenario, blob Y. -/
def blobY : BlobMeta := ⟨[2], "y.png", "image/png", 0⟩

/-- A post owned by alice whose linked attachment is blob X. -/
def postAliceX : PostV := ⟨"p1", "alice", contentBytes "Hi", .oid "X", 0, [], []⟩

/-- Stores holding the alice post and the two blobs X and Y. -/
def c3St : St := ⟨[postAliceX], [("X", blobX), ("Y", blobY)]⟩

/-- alice's delete request against her own post, echoing attachment id Y
in the form although her post references X. -/
def reqDeleteY : ReqV :=
  { referer := some "http://site/feed", user := "alice",
    form := [(keyId, "p1"), (keyAttachmentId, "Y")], filesAttachment := none }

/-- alice's delete request against her own post with the attachment_id
form field set to the literal None word (the client echo for a post with
no attachment). -/
def reqDeleteNone : ReqV :=
  { referer := some "http://site/feed", user := "alice",
    form := [(keyId, "p1"), (keyAttachmentId, strNone)], filesAttachment := none }

/-- bob's update attempt against alice's post, with valid new content. -/
def reqUpdBob : ReqV :=
  { referer := some "http://site/feed", user := "bob",
    form := [(keyId, "p1"), (keyContent, "Bye")], filesAttachment := none }

/-- bob's delete attempt against alice's post. -/
def reqDelBob : ReqV :=
  { referer := some "http://site/feed", user := "bob",
    form := [(keyId, "p1"), (keyAttachmentId, strNone)], filesAttachment := none }

/-- Stores holding only the alice post and its blob. -/
def c4St : St := ⟨[postAliceX], [("X", blobX)]⟩

/-- A request carrying no Referer header at all. -/
def reqDirect : ReqV :=
  { referer := none, user := "alice", form := [], filesAttachment := none }

/-- An update request that carries valid content but no id field. -/
def reqUpdNoId : ReqV :=
  { referer := some "http://site/feed", user := "alice",
    form := [(keyContent, "Hello")], filesAttachment := none }

/-- A create request whose multipart body has no attachment part at all. -/
def reqNoPart : ReqV :=
  { referer := some "http://site/feed", user := "alice",
    form := [(keyContent, "Hello")], filesAttachment := none }

/-- Unfolding of the validator: acceptance is exactly full pattern match
plus invariance under the cleaning transform. -/
theorem validate_sanitize_iff (value : String) (pattern : RePattern) :
    validate_sanitize value pattern = true ↔
      re_fullmatch pattern value = true ∧ bleach_clean value = value := by
  simp only [validate_sanitize]
  split
  · rename_i hc
    simp only [Bool.and_eq_true, beq_iff_eq] at hc
    exact ⟨fun _ => hc, fun _ => rfl⟩
  · rename_i hc
    simp only [Bool.and_eq_true, beq_iff_eq] at hc
    constructor
    · intro hcontra
      exact absurd hcontra (by simp)
    · intro hcontra
      exact absurd ⟨hcontra.1, by rw [hcontra.2]⟩ hc

/-- The base64 alphabet map is inverted by its decoder on sextets. -/
theorem b64AlphaDecode_code : ∀ n, n < 64 → b64AlphaDecode (b64AlphaCode n) = n := by decide

/-- No alphabet character is the padding character (61). -/
theorem b64AlphaCode_ne_61 : ∀ n, n < 64 → b64AlphaCode n ≠ 61 := by decide

/-- Decoding inverts encoding on byte strings. -/
theorem b64_roundtrip : ∀ bs : List Nat, (∀ x ∈ bs, x < 256) →
    b64DecodeList (b64EncodeList bs) = bs
  | [], _ => rfl
  | [a], h => by
      have ha : a < 256 := h a (by simp)
      rw [b64EncodeList, b64DecodeList]
      rw [if_pos rfl]
      rw [b64AlphaDecode_code _ (by omega), b64AlphaDecode_code _ (by omega)]
      simp only [List.cons.injEq, and_true]
      omega
  | [a, b], h => by
      have ha : a < 256 := h a (by simp)
      have hb : b < 256 := h b (by simp)
      rw [b64EncodeList, b64DecodeList]
      rw [if_neg (b64AlphaCode_ne_61 _ (by omega)), if_pos rfl]
      rw [b64AlphaDecode_code _ (by omega), b64AlphaDecode_code _ (by omega),
          b64AlphaDecode_code _ (by omega)]
      simp only [List.cons.injEq, and_true]
      constructor <;> omega
  | a :: b :: c :: rest, h => by
      have ha : a < 256 := h a (by simp)
      have hb : b < 256 := h b (by simp)
      have hc : c < 256 := h c (by simp)
      have ih := b64_roundtrip rest (fun x hx => h x (by simp [hx]))
      rw [b64EncodeList, b64DecodeList]
      rw [if_neg (b64AlphaCode_ne_61 _ (by omega)), if_neg (b64AlphaCode_ne_61 _ (by omega))]
      rw [b64AlphaDecode_code _ (by omega), b64AlphaDecode_code _ (by omega),
          b64AlphaDecode_code _ (by omega), b64AlphaDecode_code _ (by omega)]
      rw [ih]
      simp only [List.cons.injEq, and_true]
      refine ⟨by omega, by omega, by omega⟩

/-- ASCII code points encode as themselves in one byte. -/
theorem utf8EncodeCharCode_ascii {n : Nat} (h : n < 128) : utf8EncodeCharCode n = [n] := by
  simp [utf8EncodeCharCode, h]

/-- Character-list form of the encoder on ASCII text. -/
theorem utf8Encode_ascii_chars : ∀ l : List Char, (∀ c ∈ l, c.toNat < 128) →
    List.flatten (l.map (fun c => utf8EncodeCharCode c.toNat)) = l.map Char.toNat
  | [], _ => rfl
  | c :: rest, h => by
      have hc : c.toNat < 128 := h c (by simp)
      have ih := utf8Encode_ascii_chars rest (fun x hx => h x (by simp [hx]))
      simp [utf8EncodeCharCode_ascii hc, ih]

/-- The encoder on ASCII text is the code point map. -/
theorem utf8Encode_ascii (s : String) (h : ∀ c ∈ s.toList, c.toNat < 128) :
    utf8Encode s = s.toList.map Char.toNat := by
  unfold utf8Encode
  exact utf8Encode_ascii_chars s.toList h

/-- The decoder worker returns ASCII bytes unchanged, given enough fuel. -/
theorem utf8DecodeAux_ascii : ∀ (fuel : Nat) (bs : List Nat), bs.length ≤ fuel →
    (∀ x ∈ bs, x < 128) → utf8DecodeAux fuel bs = some bs := by
  intro fuel
  induction fuel with
  | zero =>
    intro bs hlen _
    cases bs with
    | nil => rfl
    | cons b rest => simp at hlen
  | succ n ih =>
    intro bs hlen hall
    cases bs with
    | nil => rfl
    | cons b rest =>
      have hb : b < 128 := hall b (by simp)
      have hrest : utf8DecodeAux n rest = some rest := by
        refine ih rest ?_ (fun x hx => hall x (by simp [hx]))
        simp only [List.length_cons] at hlen
        omega
      simp [utf8DecodeAux, hb, hrest]

/-- The decoder returns ASCII bytes unchanged. -/
theorem utf8Decode_ascii (bs : List Nat) (h : ∀ x ∈ bs, x < 128) :
    utf8Decode? bs = some bs :=
  utf8DecodeAux_ascii bs.length bs le_rfl h

/-- Every character of the POST class is ASCII. -/
theorem postCharCode_lt_128 (n : Nat) (h : postCharCode n = true) : n < 128 := by
  simp only [postCharCode, isPySpaceCode, Bool.or_eq_true, Bool.and_eq_true,
    decide_eq_true_eq] at h
  omega

/-- Content that passes the validator under the POST pattern survives the
store representation: encoding with utf-8 then base64 and reading back
through base64 then utf-8 restores the text. -/
theorem decodeStored_contentBytes {c : String} (h : validate_sanitize c POST_REGEX = true) :
    decodeStored (contentBytes c) = some c := by
  have hfm := ((validate_sanitize_iff c POST_REGEX).mp h).1
  have hall : ∀ ch ∈ c.toList, ch.toNat < 128 := by
    simp only [re_fullmatch, POST_REGEX, Bool.and_eq_true, List.all_eq_true] at hfm
    intro ch hch
    exact postCharCode_lt_128 _ (hfm.2 ch hch)
  have henc : utf8Encode c = c.toList.map Char.toNat := utf8Encode_ascii c hall
  have hbytes : ∀ x ∈ c.toList.map Char.toNat, x < 128 := by
    intro x hx
    obtain ⟨ch, hch, rfl⟩ := List.mem_map.mp hx
    exact hall ch hch
  unfold decodeStored contentBytes
  rw [henc, b64_roundtrip _ (fun x hx => by have := hbytes x hx; omega),
      utf8Decode_ascii _ hbytes]
  simp only [Option.map_some']
  congr 1
  rw [List.map_map]
  have hid : (Char.ofNat ∘ Char.toNat) = id := funext (fun ch => Char.ofNat_toNat ch)
  rw [hid, List.map_id]
  cases c
  rfl

/-- A filtered update matching no document reports zero and leaves the
store unchanged. -/
theorem updateOne_nomatch : ∀ (l : List PostV) (pid u : String) (cb : List Nat),
    (∀ q ∈ l, ¬(q.id = pid ∧ q.username = u)) → updateOne l pid u cb = (0, l)
  | [], _, _, _, _ => rfl
  | p :: rest, pid, u, cb, h => by
      have hp := h p (by simp)
      have ih := updateOne_nomatch rest pid u cb (fun q hq => h q (by simp [hq]))
      have hcond : (p.id == pid && p.username == u) = false := by
        by_cases h1 : p.id = pid
        · by_cases h2 : p.username = u
          · exact absurd ⟨h1, h2⟩ hp
          · simp [h2]
        · simp [h1]
      simp [updateOne, hcond, ih]

/-- A filtered delete matching no document reports zero and leaves the
store unchanged. -/
theorem deleteOne_nomatch : ∀ (l : List PostV) (pid u : String),
    (∀ q ∈ l, ¬(q.id = pid ∧ q.username = u)) → deleteOne l pid u = (0, l)
  | [], _, _, _ => rfl
  | p :: rest, pid, u, h => by
      have hp := h p (by simp)
      have ih := deleteOne_nomatch rest pid u (fun q hq => h q (by simp [hq]))
      have hcond : (p.id == pid && p.username == u) = false := by
        by_cases h1 : p.id = pid
        · by_cases h2 : p.username = u
          · exact absurd ⟨h1, h2⟩ hp
          · simp [h2]
        · simp [h1]
      simp [deleteOne, hcond, ih]

/-- Documents after a filtered update either existed before or carry the
patched content. -/
theorem updateOne_mem : ∀ (l : List PostV) (pid u : String) (cb : List Nat) (q : PostV),
    q ∈ (updateOne l pid u cb).2 → q ∈ l ∨ q.content = cb
  | [], _, _, _, q, hq => by simp [updateOne] at hq
  | p :: rest, pid, u, cb, q, hq => by
      by_cases hcond : (p.id == pid && p.username == u) = true
      · simp only [updateOne, hcond, if_pos] at hq
        rcases List.mem_cons.mp hq with hq | hq
        · right
          rw [hq]
        · left
          exact List.mem_cons_of_mem _ hq
      · simp only [updateOne, hcond, if_neg, Bool.not_eq_true] at hq
        rcases List.mem_cons.mp hq with hq | hq
        · left
          simp [hq]
        · rcases updateOne_mem rest pid u cb q hq with hm | hm
          · left
            exact List.mem_cons_of_mem _ hm
          · right
            exact hm

/-- Documents remaining after a filtered delete existed before. -/
theorem deleteOne_mem : ∀ (l : List PostV) (pid u : String) (q : PostV),
    q ∈ (deleteOne l pid u).2 → q ∈ l
  | [], _, _, q, hq => by simp [deleteOne] at hq
  | p :: rest, pid, u, q, hq => by
      by_cases hcond : (p.id == pid && p.username == u) = true
      · simp only [deleteOne, hcond, if_pos] at hq
        exact List.mem_cons_of_mem _ hq
      · simp only [deleteOne, hcond, if_neg, Bool.not_eq_true] at hq
        rcases List.mem_cons.mp hq with hq | hq
        · simp [hq]
        · exact List.mem_cons_of_mem _ (deleteOne_mem rest pid u q hq)

/-- When the id+owner lookup finds a document, the filtered delete
reports one deletion. -/
theorem deleteOne_count_one : ∀ (l : List PostV) (pid u : String) (p : PostV),
    l.find? (fun q => q.id == pid && q.username == u) = some p →
    (deleteOne l pid u).1 = 1
  | [], _, _, _, h => by simp at h
  | q0 :: rest, pid, u, p, h => by
      by_cases hcond : (q0.id == pid && q0.username == u) = true
      · simp [deleteOne, hcond]
      · rw [List.find?_cons_of_neg _ (by simp [hcond])] at h
        have ih := deleteOne_count_one rest pid u p h
        simp [deleteOne, hcond, ih]

/-- create_post only ever inserts validated, freshly encoded content. -/
theorem create_post_preserves_inv (env : Env) (req : ReqV) (st : St)
    (h : contentInvariant st.posts) :
    contentInvariant (create_post env req st).st.posts := by
  unfold create_post
  split
  · exact h
  split
  · exact h
  dsimp only
  split
  · exact h
  split
  · exact h
  rename_i hval
  intro p hp
  dsimp only at hp
  rw [List.mem_append] at hp
  rcases hp with hp | hp
  · exact h p hp
  · simp only [List.mem_singleton] at hp
    subst hp
    refine ⟨pyStrip ((formGet req.form keyContent).getD ""), rfl, ?_⟩
    simpa using hval

/-- update_post only ever stages validated, freshly encoded content. -/
theorem update_post_preserves_inv (env : Env) (req : ReqV) (st : St)
    (h : contentInvariant st.posts) :
    contentInvariant (update_post env req st).st.posts := by
  unfold update_post
  split
  · exact h
  dsimp only
  split
  · exact h
  split
  next heq => exact h
  next cb heq =>
    split at heq
    · rename_i hcond
      injection heq with heq2
      subst heq2
      have hval : validate_sanitize (pyStrip ((formGet req.form keyContent).getD ""))
          POST_REGEX = true := by
        simp only [Bool.and_eq_true] at hcond
        exact hcond.2
      split
      all_goals
        intro p hp
        rcases updateOne_mem _ _ _ _ p hp with hm | hm
        · exact h p hm
        · exact ⟨_, hm, hval⟩
    · exact absurd heq (by simp)

/-- delete_post only ever removes documents. -/
theorem delete_post_preserves_inv (env : Env) (req : ReqV) (st : St)
    (h : contentInvariant st.posts) :
    contentInvariant (delete_post env req st).st.posts := by
  unfold delete_post
  split
  · exact h
  dsimp only
  split
  · exact h
  split
  · exact h
  split
  all_goals
    intro p hp
    exact h p (deleteOne_mem _ _ _ p hp)

/-- The invariant holds in every reachable store state. -/
theorem reachable_contentInvariant (st : St) (h : Reachable st) :
    contentInvariant st.posts := by
  induction h with
  | init =>
    intro p hp
    simp at hp
  | create env req st' _ ih => exact create_post_preserves_inv env req st' ih
  | update env req st' _ ih => exact update_post_preserves_inv env req st' ih
  | delete env req st' _ ih => exact delete_post_preserves_inv env req st' ih

/-- C1: the claimed encode-on-write, decode-on-read round trip fails on
the code. Creating a post with sanitizer-accepted content Hello, world!
and then listing returns the record with content equal to the base64
text of the stored bytes, because get_posts only utf-8-decodes the
stored value and never undoes the base64 layer; the returned content is
not the original text. -/
theorem C1_roundtrip_fails_on_hello :
    ∃ v : PostView,
      (get_posts reqHello none (create_post demoEnv reqHello emptySt).st demoProfiles).resp
        = Resp.postsJson [v]
      ∧ v.content = "SGVsbG8sIHdvcmxkIQ==" ∧ v.content ≠ "Hello, world!" := by
  refine ⟨_, rfl, rfl, by decide⟩

/-- C2: a create_post request whose attachment fails Upload Pipeline
validation (here: an empty file, with valid content and filename) does
not abort post creation: the post record is inserted with the error
return of upload_file stored in its attachment field, and the caller
receives the success redirect instead of an error. -/
theorem C2_upload_failure_not_aborted :
    (create_post demoEnv reqEmptyUpload emptySt).resp = Resp.redirect rootUrl ∧
    ∃ p : PostV, (create_post demoEnv reqEmptyUpload emptySt).st.posts = [p] ∧
      p.attachment = StoredAttach.errMsg ERROR_EMPTY_FILE :=
  ⟨rfl, _, rfl, rfl⟩

/-- C5: in every store state reachable from the empty stores through the
mutating handlers, every stored post's content, decoded from its stored
representation (base64 then utf-8), fully matches the POST content
pattern; create_post validates before encoding and update_post
re-validates any new content before staging it. -/
theorem C5_content_wellformed (st : St) (h : Reachable st) :
    ∀ p ∈ st.posts, ∃ c : String,
      decodeStored p.content = some c ∧ re_fullmatch POST_REGEX c = true := by
  intro p hp
  obtain ⟨c, hc, hv⟩ := reachable_contentInvariant st h p hp
  exact ⟨c, by rw [hc]; exact decodeStored_contentBytes hv,
         ((validate_sanitize_iff c POST_REGEX).mp hv).1⟩

/-- C5 witness: the store reached by one concrete create satisfies the
decoded-content invariant. -/
theorem C5_content_wellformed_witness :
    Reachable (create_post demoEnv reqHello emptySt).st ∧
    ∀ p ∈ (create_post demoEnv reqHello emptySt).st.posts, ∃ c : String,
      decodeStored p.content = some c ∧ re_fullmatch POST_REGEX c = true :=
  have hr : Reachable (create_post demoEnv reqHello emptySt).st :=
    Reachable.create demoEnv reqHello emptySt Reachable.init
  ⟨hr, C5_content_wellformed _ hr⟩

/-- C6: validate_sanitize accepts exactly the strings that both fully
match the pattern from start to end and are byte-for-byte fixed points
of the markup-neutralizing transform; hence every accepted string is a
fixed point of the transform, and any string the transform would alter
is rejected, never cleaned. -/
theorem C6_validate_sanitize_spec (value : String) (pattern : RePattern) :
    (validate_sanitize value pattern = true ↔
      re_fullmatch pattern value = true ∧ bleach_clean value = value) ∧
    (validate_sanitize value pattern = true → bleach_clean value = value) ∧
    (bleach_clean value ≠ value → validate_sanitize value pattern = false) := by
  refine ⟨validate_sanitize_iff value pattern, ?_, ?_⟩
  · intro hv
    exact ((validate_sanitize_iff value pattern).mp hv).2
  · intro halt
    cases hvp : validate_sanitize value pattern with
    | false => rfl
    | true => exact absurd ((validate_sanitize_iff value pattern).mp hvp).2 halt

/-- C6 witness: an accepted string is returned unchanged by the
transform, and a string the transform alters is rejected. -/
theorem C6_validate_sanitize_witness :
    bleach_clean "Hello" = "Hello" ∧ validate_sanitize "a<b" POST_REGEX = false :=
  ⟨(C6_validate_sanitize_spec "Hello" POST_REGEX).2.1 (by decide),
   (C6_validate_sanitize_spec "a<b" POST_REGEX).2.2 (by decide)⟩

/-- C9: an update_post request with no post identifier is not rejected
with the Post ID is required error: ObjectId of the absent field mints a
fresh id, so the missing-id guard never fires; the handler proceeds to
the store (one call) and reports not-found-or-forbidden instead. -/
theorem C9_missing_id_guard_dead :
    (update_post demoEnv reqUpdNoId emptySt).resp
      = Resp.errJson ERROR_POST_NOT_FOUND 403 ∧
    (update_post demoEnv reqUpdNoId emptySt).resp ≠ Resp.errJson msgPostIdRequired 400 ∧
    (update_post demoEnv reqUpdNoId emptySt).dbCalls = 1 := by
  refine ⟨rfl, by decide, rfl⟩

/-- A request whose Referer header is present is not a direct call. -/
theorem is_direct_call_false {req : ReqV} (h : req.referer.isSome) :
    is_direct_call req = false := by
  cases hr : req.referer with
  | none =>
    rw [hr] at h
    simp at h
  | some r =>
    unfold is_direct_call
    rw [hr]

/-- C3 counterexample: alice deletes her own existing post p1, whose
stored record links attachment X, while her request form names
attachment id Y; the handler removes blob Y from the blob store and the
linked blob X survives, refuting that the attachment deleted is the one
referenced by the stored post record. -/
theorem C3_counterexample_form_attachment :
    postAliceX.attachment = StoredAttach.oid "X" ∧
    (delete_post demoEnv reqDeleteY c3St).resp = Resp.redirect rootUrl ∧
    (delete_post demoEnv reqDeleteY c3St).st.posts = [] ∧
    (delete_post demoEnv reqDeleteY c3St).st.blobs = [("X", blobX)] :=
  ⟨rfl, rfl, rfl, rfl⟩

/-- C3 amended: for every delete_post invocation by the owner of an
existing post, the attachment removed from the blob store is the one
named by the attachment_id form field (no blob when that field is the
None word), regardless of the attachment the stored record references;
afterwards the post record is deleted under the id+owner filter, and the
caller is redirected. -/
theorem C3_amended_form_attachment_deleted
    (env : Env) (req : ReqV) (st : St) (pid aid : String) (p : PostV)
    (href : req.referer.isSome)
    (hid : formGet req.form keyId = some pid)
    (haid : formGet req.form keyAttachmentId = some aid)
    (hfind : st.posts.find? (fun q => q.id == pid && q.username == req.user) = some p) :
    (delete_post env req st).resp = Resp.redirect rootUrl ∧
    (delete_post env req st).st.blobs =
      (if aid ≠ strNone then st.blobs.filter (fun kv => kv.1 ≠ aid) else st.blobs) ∧
    (delete_post env req st).st.posts = (deleteOne st.posts pid req.user).2 := by
  have hne : ¬(is_direct_call req = true) := by simp [is_direct_call_false href]
  have hcnt := deleteOne_count_one st.posts pid req.user p hfind
  have hguard : ¬(pyNotObjectId pid = true) := by simp [pyNotObjectId]
  have hcnt2 : ¬((deleteOne st.posts pid req.user).1 = 0) := by omega
  unfold delete_post
  rw [if_neg hne]
  dsimp only
  rw [hid, haid]
  simp only [pyObjectId, Option.getD_some]
  rw [if_neg hguard]
  rw [hfind]
  dsimp only
  by_cases haidne : aid = strNone
  · have hsome : ¬(some aid ≠ some strNone) := by simp [haidne]
    rw [if_neg hsome]
    rw [if_neg hcnt2]
    refine ⟨rfl, ?_, rfl⟩
    rw [if_neg (by simp [haidne])]
  · have hsome : some aid ≠ some strNone := by simpa using haidne
    rw [if_pos hsome]
    rw [if_neg hcnt2]
    refine ⟨rfl, ?_, rfl⟩
    rw [if_pos haidne]

/-- C3 amended witness: the concrete owner delete against post p1 with
form attachment id Y removes blob Y and the post record, and the same
delete with the attachment_id field set to the None word removes no blob
and still deletes the post record. -/
theorem C3_amended_witness :
    ((delete_post demoEnv reqDeleteY c3St).resp = Resp.redirect rootUrl ∧
     (delete_post demoEnv reqDeleteY c3St).st.blobs =
       (if ("Y" : String) ≠ strNone then c3St.blobs.filter (fun kv => kv.1 ≠ "Y")
        else c3St.blobs) ∧
     (delete_post demoEnv reqDeleteY c3St).st.posts
       = (deleteOne c3St.posts "p1" reqDeleteY.user).2) ∧
    ((delete_post demoEnv reqDeleteNone c3St).resp = Resp.redirect rootUrl ∧
     (delete_post demoEnv reqDeleteNone c3St).st.blobs =
       (if strNone ≠ strNone then c3St.blobs.filter (fun kv => kv.1 ≠ strNone)
        else c3St.blobs) ∧
     (delete_post demoEnv reqDeleteNone c3St).st.posts
       = (deleteOne c3St.posts "p1" reqDeleteNone.user).2) :=
  ⟨C3_amended_form_attachment_deleted demoEnv reqDeleteY c3St "p1" "Y" postAliceX
     rfl rfl rfl rfl,
   C3_amended_form_attachment_deleted demoEnv reqDeleteNone c3St "p1" strNone postAliceX
     rfl rfl rfl rfl⟩

/-- C4: ownership isolation. For identities A and B with B distinct from
A and a post owned by A (and no other post sharing its id), B's
update_post with valid content against that id, and B's delete_post
against that id, both report the conflated not-found-or-forbidden error,
and the stores are completely unchanged; the mutations are the id+owner
filtered store operations updateOne and deleteOne. -/
theorem C4_ownership_isolation
    (env : Env) (requ reqd : ReqV) (st : St) (pid A : String) (p : PostV)
    (_hp : p ∈ st.posts) (_hpid : p.id = pid) (_howner : p.username = A)
    (honly : ∀ q ∈ st.posts, q.id = pid → q.username = A)
    (hrefu : requ.referer.isSome) (huseru : requ.user ≠ A)
    (hidu : formGet requ.form keyId = some pid)
    (hcontent : pyStrip ((formGet requ.form keyContent).getD "") ≠ "")
    (hvalid : validate_sanitize (pyStrip ((formGet requ.form keyContent).getD ""))
        POST_REGEX = true)
    (hrefd : reqd.referer.isSome) (huserd : reqd.user ≠ A)
    (hidd : formGet reqd.form keyId = some pid) :
    (update_post env requ st).resp = Resp.errJson ERROR_POST_NOT_FOUND 403 ∧
    (update_post env requ st).st = st ∧
    (delete_post env reqd st).resp = Resp.errJson ERROR_POST_NOT_FOUND 403 ∧
    (delete_post env reqd st).st = st := by
  have hnbu : ∀ q ∈ st.posts, ¬(q.id = pid ∧ q.username = requ.user) := by
    rintro q hq ⟨h1, h2⟩
    exact huseru (by rw [← h2]; exact honly q hq h1)
  have hnbd : ∀ q ∈ st.posts, ¬(q.id = pid ∧ q.username = reqd.user) := by
    rintro q hq ⟨h1, h2⟩
    exact huserd (by rw [← h2]; exact honly q hq h1)
  have hupd : update_post env requ st = ⟨Resp.errJson ERROR_POST_NOT_FOUND 403, st, 1⟩ := by
    have hneu : ¬(is_direct_call requ = true) := by simp [is_direct_call_false hrefu]
    have hguard : ¬(pyNotObjectId pid = true) := by simp [pyNotObjectId]
    have hstaged : (decide (pyStrip ((formGet requ.form keyContent).getD "") ≠ "") &&
        validate_sanitize (pyStrip ((formGet requ.form keyContent).getD ""))
          POST_REGEX) = true := by
      simp [hcontent, hvalid]
    unfold update_post
    rw [if_neg hneu]
    dsimp only
    rw [hidu]
    simp only [pyObjectId, Option.getD_some]
    rw [if_neg hguard]
    rw [if_pos hstaged]
    dsimp only
    rw [updateOne_nomatch st.posts pid requ.user _ hnbu]
    rw [if_pos rfl]
  have hdel : delete_post env reqd st = ⟨Resp.errJson ERROR_POST_NOT_FOUND 403, st, 1⟩ := by
    have hned : ¬(is_direct_call reqd = true) := by simp [is_direct_call_false hrefd]
    have hguard : ¬(pyNotObjectId pid = true) := by simp [pyNotObjectId]
    have hfnone : st.posts.find? (fun q => q.id == pid && q.username == reqd.user) = none := by
      rw [List.find?_eq_none]
      intro q hq
      simp only [Bool.and_eq_true, beq_iff_eq, not_and]
      intro h1 h2
      exact absurd ⟨h1, h2⟩ (hnbd q hq)
    unfold delete_post
    rw [if_neg hned]
    dsimp only
    rw [hidd]
    simp only [pyObjectId, Option.getD_some]
    rw [if_neg hguard]
    rw [hfnone]
  exact ⟨by rw [hupd], by rw [hupd], by rw [hdel], by rw [hdel]⟩

/-- C4 witness: bob's update and delete against alice's post p1 are both
rejected with the conflated error and change nothing. -/
theorem C4_ownership_isolation_witness :
    (update_post demoEnv reqUpdBob c4St).resp = Resp.errJson ERROR_POST_NOT_FOUND 403 ∧
    (update_post demoEnv reqUpdBob c4St).st = c4St ∧
    (delete_post demoEnv reqDelBob c4St).resp = Resp.errJson ERROR_POST_NOT_FOUND 403 ∧
    (delete_post demoEnv reqDelBob c4St).st = c4St :=
  C4_ownership_isolation demoEnv reqUpdBob reqDelBob c4St "p1" "alice" postAliceX
    (by decide) rfl rfl (by decide) rfl (by decide) rfl (by decide) (by decide)
    rfl (by decide) rfl

/-- C7: boundary behaviour of the upload validator: a buffer of exactly
the 50 MiB ceiling passes the size check (the result is never the
too-large rejection), a buffer one byte over the ceiling is rejected as
too large, and a zero-length buffer is rejected as an empty file by the
separate emptiness check that the size ceiling does not influence. -/
theorem C7_size_boundary (env : Env) (blobs : List (String × BlobMeta)) (f : FileV) :
    (f.data.length = MAX_FILE_SIZE_BYTES → (upload_file env blobs f).1 ≠ UploadRet.tooLarge) ∧
    (f.data.length = MAX_FILE_SIZE_BYTES + 1 → (upload_file env blobs f).1 = UploadRet.tooLarge) ∧
    (f.data.length = 0 → (upload_file env blobs f).1 = UploadRet.emptyFile) := by
  have hM : MAX_FILE_SIZE_BYTES = 52428800 := rfl
  refine ⟨?_, ?_, ?_⟩
  · intro hlen
    have ha : ¬(f.data.length > MAX_FILE_SIZE_BYTES) := by omega
    have hb : ¬(f.data.length = 0) := by omega
    unfold upload_file
    rw [if_neg ha]
    dsimp only
    rw [if_neg hb]
    split
    · simp
    · split
      · simp
      · simp
  · intro hlen
    have ha : f.data.length > MAX_FILE_SIZE_BYTES := by omega
    unfold upload_file
    rw [if_pos ha]
  · intro hlen
    have ha : ¬(f.data.length > MAX_FILE_SIZE_BYTES) := by omega
    unfold upload_file
    rw [if_neg ha]
    dsimp only
    rw [if_pos hlen]

/-- C7 witness: the three boundary buffers behave as stated. -/
theorem C7_size_boundary_witness :
    (upload_file demoEnv [] ⟨"big.png", List.replicate MAX_FILE_SIZE_BYTES 0⟩).1
      ≠ UploadRet.tooLarge ∧
    (upload_file demoEnv [] ⟨"big.png", List.replicate (MAX_FILE_SIZE_BYTES + 1) 0⟩).1
      = UploadRet.tooLarge ∧
    (upload_file demoEnv [] ⟨"a.png", []⟩).1 = UploadRet.emptyFile :=
  ⟨(C7_size_boundary demoEnv [] _).1 (by simp),
   (C7_size_boundary demoEnv [] _).2.1 (by simp),
   (C7_size_boundary demoEnv [] _).2.2 rfl⟩

/-- C8: a request carrying no Referer header is rejected by each of the
create, update, delete and list operations with the direct-call error,
with zero store calls issued and the stores unchanged. -/
theorem C8_direct_call_rejected (env : Env) (req : ReqV) (st : St)
    (username : Option String) (profiles : String → Profile)
    (h : req.referer = none) :
    create_post env req st = ⟨Resp.errJson ERROR_DIRECT_CALL_DENIED 400, st, 0⟩ ∧
    update_post env req st = ⟨Resp.errJson ERROR_DIRECT_CALL_DENIED 400, st, 0⟩ ∧
    delete_post env req st = ⟨Resp.errJson ERROR_DIRECT_CALL_DENIED 400, st, 0⟩ ∧
    get_posts req username st profiles = ⟨Resp.errJson ERROR_DIRECT_CALL_DENIED 400, st, 0⟩ := by
  have hd : is_direct_call req = true := by
    unfold is_direct_call
    rw [h]
  refine ⟨?_, ?_, ?_, ?_⟩
  · unfold create_post
    rw [if_pos hd]
  · unfold update_post
    rw [if_pos hd]
  · unfold delete_post
    rw [if_pos hd]
  · unfold get_posts
    rw [if_pos hd]

/-- C8 witness: the concrete Referer-less request is rejected by all
four operations with no store access. -/
theorem C8_direct_call_witness :
    create_post demoEnv reqDirect emptySt
      = ⟨Resp.errJson ERROR_DIRECT_CALL_DENIED 400, emptySt, 0⟩ ∧
    update_post demoEnv reqDirect emptySt
      = ⟨Resp.errJson ERROR_DIRECT_CALL_DENIED 400, emptySt, 0⟩ ∧
    delete_post demoEnv reqDirect emptySt
      = ⟨Resp.errJson ERROR_DIRECT_CALL_DENIED 400, emptySt, 0⟩ ∧
    get_posts reqDirect none emptySt demoProfiles
      = ⟨Resp.errJson ERROR_DIRECT_CALL_DENIED 400, emptySt, 0⟩ :=
  C8_direct_call_rejected demoEnv reqDirect emptySt none demoProfiles rfl

/-- C10: create_post indexes the files mapping at key attachment
unconditionally. A create request whose multipart body lacks the
attachment part entirely is rejected with the framework 400 page before
content validation and before any store access, with the stores
untouched; while a request whose attachment part is present with an
empty filename proceeds normally, storing the post with no attachment
(the attachment is optional only in that form). -/
theorem C10_unconditional_files_lookup (env : Env) (req req2 : ReqV) (st : St) (fpart : FileV)
    (h1 : req.referer.isSome) (h2 : req.filesAttachment = none)
    (h3 : req2.referer.isSome) (h4 : req2.filesAttachment = some fpart)
    (h5 : fpart.filename = "")
    (h6 : pyStrip ((formGet req2.form keyContent).getD "") ≠ "")
    (h7 : validate_sanitize (pyStrip ((formGet req2.form keyContent).getD ""))
        POST_REGEX = true) :
    create_post env req st = ⟨Resp.httpErr 400, st, 0⟩ ∧
    (create_post env req2 st).resp = Resp.redirect rootUrl ∧
    (create_post env req2 st).st.posts = st.posts ++
      [{ id := env.postId, username := req2.user,
         content := contentBytes (pyStrip ((formGet req2.form keyContent).getD "")),
         attachment := StoredAttach.pyNone, created_at := env.now,
         likes := [], comments := [] }] ∧
    (create_post env req2 st).st.blobs = st.blobs := by
  have hne1 : ¬(is_direct_call req = true) := by simp [is_direct_call_false h1]
  have hne2 : ¬(is_direct_call req2 = true) := by simp [is_direct_call_false h3]
  have hc2 : create_post env req2 st
      = { resp := Resp.redirect rootUrl,
          st := { posts := st.posts ++
                    [{ id := env.postId, username := req2.user,
                       content := contentBytes (pyStrip ((formGet req2.form keyContent).getD "")),
                       attachment := StoredAttach.pyNone, created_at := env.now,
                       likes := [], comments := [] }],
                  blobs := st.blobs },
          dbCalls := 0 + 1 } := by
    have hv : ¬((!validate_sanitize (pyStrip ((formGet req2.form keyContent).getD ""))
        POST_REGEX) = true) := by simp [h7]
    have hfn : ¬(fpart.filename ≠ "") := by simp [h5]
    unfold create_post
    rw [if_neg hne2, h4]
    dsimp only
    rw [if_neg h6]
    rw [if_neg hv]
    rw [if_neg hfn]
  refine ⟨?_, by rw [hc2], by rw [hc2], by rw [hc2]⟩
  unfold create_post
  rw [if_neg hne1, h2]

/-- C10 witness: the concrete request with no attachment part is turned
away with the 400 page and zero store calls, while the request with an
empty-filename part creates the post with a null attachment. -/
theorem C10_unconditional_files_lookup_witness :
    create_post demoEnv reqNoPart emptySt = ⟨Resp.httpErr 400, emptySt, 0⟩ ∧
    (create_post demoEnv reqHello emptySt).resp = Resp.redirect rootUrl ∧
    (create_post demoEnv reqHello emptySt).st.posts = emptySt.posts ++
      [{ id := demoEnv.postId, username := reqHello.user,
         content := contentBytes (pyStrip ((formGet reqHello.form keyContent).getD "")),
         attachment := StoredAttach.pyNone, created_at := demoEnv.now,
         likes := [], comments := [] }] ∧
    (create_post demoEnv reqHello emptySt).st.blobs = emptySt.blobs :=
  C10_unconditional_files_lookup demoEnv reqNoPart reqHello emptySt ⟨"", []⟩
    rfl rfl rfl rfl rfl (by decide) (by decide)

end SocialBook
